import Mathlib

/-!
Shallow embedding of the Snowflake connector of the gateway repository
(`connectors/snowflake/connector.go`) together with a spec-modelled
fragment of the MCP tool registry (`mcpgenerator`, whose source is not
part of the extract — only its test is).

Driver-level effects (the `sqlx` database handle) are modelled as an
explicit environment of result-valued functions; fallible Go calls
returning `(T, error)` become `Except String T`.  Go's Unicode
`strings.ToUpper` is modelled by an ASCII `strToUpper`, which
agrees with it on the ASCII identifiers appearing throughout the
repository.
-/

set_option linter.unusedVariables false

namespace Gateway

/-- Logical column types of the model package (`model.ColumnType`). -/
inductive ColumnType where
  | string
  | number
  | integer
  | boolean
  | datetime
  | array
  | object
deriving DecidableEq, Repr

/-- `model.ColumnSchema`: a named column with logical type and PK flag. -/
structure ColumnSchema where
  name : String
  type : ColumnType
  primaryKey : Bool
deriving DecidableEq, Repr

/-- `model.Table`: a discovered table. -/
structure Table where
  name : String
  columns : List ColumnSchema
  rowCount : Int
deriving DecidableEq, Repr

/-- `model.EndpointParams` (the fields the connector and MCP layers read). -/
structure EndpointParams where
  name : String
  type : String
  location : String := ""
  required : Bool := false
deriving DecidableEq, Repr

/-- `model.Endpoint` (the fields the connector and MCP layers read). -/
structure Endpoint where
  group : String := ""
  summary : String := ""
  description : String := ""
  httpMethod : String := ""
  httpPath : String := ""
  mcpMethod : String := ""
  query : String := ""
  isArrayResult : Bool := false
  params : List EndpointParams := []
deriving DecidableEq, Repr

/-- Checks whether `pat` is a character-wise prefix of `cs`
(the loop of Go's `strings.HasPrefix` on rune lists). -/
def startsAt : List Char → List Char → Bool
  | [], _ => true
  | _ :: _, [] => false
  | p :: ps, c :: cs => p == c && startsAt ps cs

/-- Checks whether `pat` occurs as a contiguous sublist of `cs`
(the search of Go's `strings.Contains` on rune lists). -/
def occursIn (pat : List Char) : List Char → Bool
  | [] => startsAt pat []
  | c :: cs => startsAt pat (c :: cs) || occursIn pat cs

/-- Go `strings.Contains(s, pat)` on the rune sequences of the strings. -/
def containsSubstr (s pat : String) : Bool :=
  occursIn pat.data s.data

/-- Go `strings.HasPrefix(s, pat)` on the rune sequences of the strings. -/
def startsWithStr (pat s : String) : Bool :=
  startsAt pat.data s.data

/-- Go `strings.ToUpper` on the rune sequence of the string (ASCII case
mapping, which agrees with Go on the ASCII identifiers of this
repository). -/
def strToUpper (s : String) : String :=
  ⟨s.data.map Char.toUpper⟩

/-- Value of a decimal digit list read most-significant first. -/
def natOfDigits (cs : List Char) : Nat :=
  cs.foldl (fun a c => a * 10 + (c.toNat - 48)) 0

/-- Go `fmt.Sscanf(s, "%d", &x)` with `x` initialised to 0: skip leading
whitespace, read an optional sign and a run of decimal digits; when no
digit is found the scan fails and `x` keeps its zero value. -/
def sscanfInt (s : String) : Int :=
  let cs := s.data.dropWhile Char.isWhitespace
  let signed : Bool × List Char :=
    match cs with
    | '-' :: rest => (true, rest)
    | '+' :: rest => (false, rest)
    | _ => (false, cs)
  let ds := signed.2.takeWhile Char.isDigit
  if ds.isEmpty then 0
  else if signed.1 then -(natOfDigits ds : Int) else (natOfDigits ds : Int)

namespace Snowflake

/-- `snowflake.Config`: connection configuration.  Field defaults are the
Go zero values. -/
structure Config where
  account : String := ""
  database : String := ""
  user : String := ""
  password : String := ""
  warehouse : String := ""
  schema : String := ""
  role : String := ""
  connString : String := ""
  isReadonly : Bool := false
deriving DecidableEq, Repr

/-- `Config.Readonly()`: expose the `is_readonly` YAML field. -/
def Config.Readonly (c : Config) : Bool :=
  c.isReadonly

/-- The `connection` YAML node as seen by `Config.UnmarshalYAML`: either a
scalar (decodable as a string) or a mapping (decodable as a full config
object). -/
inductive ConnYaml where
  | scalar (s : String)
  | mapping (c : Config)
deriving DecidableEq, Repr

/-- `Config.UnmarshalYAML`: first try to decode the node as a string; on
success with a non-empty value store it as the connection string.
Otherwise decode the node as a full config object (which fails on a
scalar node, modelled as the empty-string scalar falling through to a
decode error). -/
def Config.UnmarshalYAML : ConnYaml → Except String Config
  | .scalar s =>
    if s.length > 0 then .ok { connString := s }
    else .error "cannot unmarshal scalar into Config"
  | .mapping c => .ok c

/-- `Config.MakeDSN`: a prebuilt connection string is returned verbatim,
otherwise the DSN is composed from the individual fields with the format
`%s:%s@%s/%s/%s?warehouse=%s&role=%s`. -/
def Config.MakeDSN (c : Config) : Except String String :=
  if c.connString ≠ "" then .ok c.connString
  else
    .ok (c.user ++ ":" ++ c.password ++ "@" ++ c.account ++ "/" ++
      c.database ++ "/" ++ c.schema ++ "?warehouse=" ++ c.warehouse ++
      "&role=" ++ c.role)

/-- Type names of the string `switch` arm of `GuessColumnType`. -/
def stringTypeNames : List String :=
  ["VARCHAR", "CHAR", "CHARACTER", "STRING", "TEXT", "BINARY", "VARBINARY"]

/-- Type names of the numeric `switch` arm of `GuessColumnType`. -/
def numberTypeNames : List String :=
  ["NUMBER", "DECIMAL", "NUMERIC", "FLOAT", "FLOAT4", "FLOAT8", "DOUBLE", "REAL"]

/-- Type names of the integer `switch` arm of `GuessColumnType`. -/
def integerTypeNames : List String :=
  ["INT", "INTEGER", "BIGINT", "SMALLINT", "TINYINT", "BYTEINT"]

/-- Type names of the date/time `switch` arm of `GuessColumnType`. -/
def datetimeTypeNames : List String :=
  ["DATE", "TIME", "DATETIME", "TIMESTAMP", "TIMESTAMP_LTZ", "TIMESTAMP_NTZ",
   "TIMESTAMP_TZ"]

/-- `Connector.GuessColumnType`: map a Snowflake SQL type name to a
logical column type; the branches are checked in the order of the Go
function, ending in the `string` fallback. -/
def GuessColumnType (sqlType : String) : ColumnType :=
  let upperType := strToUpper sqlType
  if containsSubstr upperType "ARRAY" then .array
  else if containsSubstr upperType "OBJECT" || containsSubstr upperType "VARIANT" then
    .object
  else if stringTypeNames.contains upperType then .string
  else if numberTypeNames.contains upperType then .number
  else if integerTypeNames.contains upperType then .integer
  else if upperType == "BOOLEAN" then .boolean
  else if datetimeTypeNames.contains upperType then .datetime
  else if startsWithStr "NUMBER(" upperType then
    if containsSubstr upperType "," then .number else .integer
  else .string

/-- Disjunction of every pattern `GuessColumnType` recognises before its
final `string` fallback, on the already upper-cased type name. -/
def recognizedSqlType (u : String) : Bool :=
  containsSubstr u "ARRAY" ||
  containsSubstr u "OBJECT" || containsSubstr u "VARIANT" ||
  stringTypeNames.contains u ||
  numberTypeNames.contains u ||
  integerTypeNames.contains u ||
  u == "BOOLEAN" ||
  datetimeTypeNames.contains u ||
  startsWithStr "NUMBER(" u

/-- The column-type computation of `Connector.LoadsColumns` for one
`information_schema.columns` row: `GuessColumnType` of the declared data
type, overridden to `integer` when the declared type upper-cases to
`NUMBER` and the numeric scale is a valid 0 (`sql.NullInt64` modelled as
`Option Int`). -/
def columnLogicalType (dataType : String) (numericScale : Option Int) : ColumnType :=
  if strToUpper dataType == "NUMBER" && numericScale == some 0 then .integer
  else GuessColumnType dataType

/-- One row of `information_schema.columns` as scanned by
`Connector.LoadsColumns` (name, data type, and numeric scale; the scanned
precision is never read). -/
structure InfoColumn where
  name : String
  dataType : String
  numericScale : Option Int
deriving DecidableEq, Repr

/-- One row of `SHOW PRIMARY KEYS` as processed by `LoadsColumns`: either
the scan of the eight output columns fails (`.error ()`), or it yields
the scanned `column_name` (`none` for an invalid `sql.NullString`). -/
abbrev PkRow := Except Unit (Option String)

/-- Driver environment of `Connector.LoadsColumns`: the result of the
`information_schema.columns` query and the result of the
`SHOW PRIMARY KEYS` query (rows pre-scanned into `PkRow`). -/
structure LoadEnv where
  infoColumns : Except String (List InfoColumn)
  pkRows : Except String (List PkRow)

/-- The `columnMap[columnName.String]` update of `LoadsColumns`: the Go
map is keyed by column name and each insertion overwrites the pointer
with the address of the latest column of that name, so a primary-key
mark lands on the last column carrying the name. -/
def markPkLast : List ColumnSchema → String → List ColumnSchema
  | [], _ => []
  | c :: rest, cn =>
    if rest.any (fun d => d.name == cn) then c :: markPkLast rest cn
    else if c.name == cn then { c with primaryKey := true } :: rest
    else c :: rest

/-- The `SHOW PRIMARY KEYS` row loop of `LoadsColumns`: a scan failure
breaks out of the loop, a valid non-empty column name marks the matching
column as primary key. -/
def applyPk (cols : List ColumnSchema) : List PkRow → List ColumnSchema
  | [] => cols
  | .error _ :: _ => cols
  | .ok none :: rest => applyPk cols rest
  | .ok (some cn) :: rest =>
    if cn ≠ "" then applyPk (markPkLast cols cn) rest
    else applyPk cols rest

/-- `Connector.LoadsColumns`: read the column list from
`information_schema.columns` (errors wrapped and returned), then attempt
`SHOW PRIMARY KEYS`; a failing primary-key query is ignored and the
column list is returned with the marks collected so far. -/
def LoadsColumns (env : LoadEnv) : Except String (List ColumnSchema) :=
  match env.infoColumns with
  | .error e => .error ("unable to query columns: " ++ e)
  | .ok infos =>
    let cols := infos.map fun i =>
      { name := i.name
        type := columnLogicalType i.dataType i.numericScale
        primaryKey := false : ColumnSchema }
    match env.pkRows with
    | .error _ => .ok cols
    | .ok rows => .ok (applyPk cols rows)

/-- The column names a run of the `SHOW PRIMARY KEYS` loop actually
marks: the valid non-empty names scanned before the first scan failure
(the loop `break`s there). -/
def scannedPkNames : List PkRow → List String
  | [] => []
  | .error _ :: _ => []
  | .ok none :: rest => scannedPkNames rest
  | .ok (some cn) :: rest =>
    if cn ≠ "" then cn :: scannedPkNames rest else scannedPkNames rest

/-- The names marked by the primary-key pass of `LoadsColumns` in a given
environment: none when the `SHOW PRIMARY KEYS` query itself fails. -/
def envScannedPkNames (env : LoadEnv) : List String :=
  match env.pkRows with
  | .error _ => []
  | .ok rows => scannedPkNames rows

/-- The primary-key introspection path failed: either the
`SHOW PRIMARY KEYS` query errored, or some returned row could not be
scanned. -/
def pkIntrospectionFailed (env : LoadEnv) : Prop :=
  match env.pkRows with
  | .error _ => True
  | .ok rows => ∃ r ∈ rows, r = .error ()

/-- One row of `SHOW TABLES` restricted to the four `rowMap` keys the
code reads.  Outer `Option`: the column is present in the result set;
inner `Option`: the value is a string rather than SQL NULL.  The `name`
field collapses the two (`rowMap["name"].(string)` fails on both absence
and NULL). -/
structure ShowTableRow where
  name : Option String
  droppedOn : Option (Option String) := none
  isExternal : Option (Option String) := none
  rowsMeta : Option (Option String) := none
deriving DecidableEq, Repr

/-- Skip condition for dropped tables: the `dropped_on` column exists and
holds a non-NULL, non-empty value. -/
def droppedSkip (r : ShowTableRow) : Bool :=
  match r.droppedOn with
  | some (some s) => s ≠ ""
  | _ => false

/-- Skip condition for external tables: the `is_external` column exists
and holds the string value `Y`. -/
def externalSkip (r : ShowTableRow) : Bool :=
  r.isExternal == some (some "Y")

/-- The `tableRowCount` value parsed from the `rows` metadata column of a
`SHOW TABLES` row: starts at 0 and is overwritten by `fmt.Sscanf` only
when the column exists with a non-NULL, non-empty string value. -/
def rowMetaCount (r : ShowTableRow) : Int :=
  match r.rowsMeta with
  | some (some s) => if s ≠ "" then sscanfInt s else 0
  | _ => 0

/-- Driver environment of `Connector.Discovery` /
`Connector.executeTableQuery`: the scanned `SHOW TABLES` rows, the result
of `LoadsColumns` per table name, and the result of the fallback
`SELECT COUNT(*)` per table name. -/
structure DiscoveryEnv where
  showTables : Except String (List ShowTableRow)
  loadsColumnsR : String → Except String (List ColumnSchema)
  countRows : String → Except String Int

/-- The per-row body of the `executeTableQuery` loop: skip rows without a
string `name`, dropped tables, and external tables; load the columns
(errors propagate); take the row count from the `rows` metadata, falling
back to `SELECT COUNT(*)` whenever the parsed metadata count is 0. -/
def processRow (env : DiscoveryEnv) (r : ShowTableRow) : Except String (Option Table) :=
  match r.name with
  | none => .ok none
  | some tableName =>
    if droppedSkip r then .ok none
    else if externalSkip r then .ok none
    else
      match env.loadsColumnsR tableName with
      | .error e => .error e
      | .ok cols =>
        let cnt := rowMetaCount r
        if cnt == 0 then
          match env.countRows tableName with
          | .error e =>
            .error ("unable to get row count for table " ++ tableName ++ ": " ++ e)
          | .ok k => .ok (some { name := tableName, columns := cols, rowCount := k })
        else .ok (some { name := tableName, columns := cols, rowCount := cnt })

/-- The row loop of `executeTableQuery`, in row order; the first error
aborts the whole call. -/
def executeRows (env : DiscoveryEnv) : List ShowTableRow → Except String (List Table)
  | [] => .ok []
  | r :: rest =>
    match processRow env r with
    | .error e => .error e
    | .ok none => executeRows env rest
    | .ok (some t) =>
      match executeRows env rest with
      | .error e => .error e
      | .ok ts => .ok (t :: ts)

/-- `Connector.executeTableQuery`: run `SHOW TABLES IN SCHEMA` and
process every row. -/
def executeTableQuery (env : DiscoveryEnv) : Except String (List Table) :=
  match env.showTables with
  | .error e => .error e
  | .ok rows => executeRows env rows

/-- `Connector.Discovery`: with a non-empty table list, fetch all tables
via `executeTableQuery` and keep those whose upper-cased name is in the
set of upper-cased requested names; with an empty list, return all
tables. -/
def Discovery (env : DiscoveryEnv) (tablesList : List String) : Except String (List Table) :=
  if tablesList.length > 0 then
    match executeTableQuery env with
    | .error e => .error e
    | .ok tables =>
      .ok (tables.filter fun t =>
        tablesList.any fun a => strToUpper a == strToUpper t.name)
  else executeTableQuery env

/-- Raw request parameters (`map[string]any`); values are opaque to the
connector and modelled as strings. -/
abbrev Params := List (String × String)

/-- A result row (`map[string]any` after `MapScan`). -/
abbrev Row := List (String × String)

/-- Driver environment of `Connector.Query`: the `castx.ParamsE` coercion
(§4.B, implemented outside this connector) and the driver's
`NamedQuery`. -/
structure QueryEnv where
  paramsE : Endpoint → Params → Except String Params
  namedQuery : String → Params → Except String (List Row)

/-- `Connector.Query`, instrumented with the list of SQL texts submitted
to the driver (second component): coerce the parameters through
`castx.ParamsE`; on coercion failure return the wrapped error without
touching the driver; otherwise submit `endpoint.Query` via `NamedQuery`
and return the scanned rows.  The `cfg` argument is the connector's
config (the receiver's `c.config`); the Go method body never reads it. -/
def Query (cfg : Config) (env : QueryEnv) (endpoint : Endpoint) (params : Params) :
    Except String (List Row) × List String :=
  match env.paramsE endpoint params with
  | .error e => (.error ("unable to process params: " ++ e), [])
  | .ok processed =>
    match env.namedQuery endpoint.query processed with
    | .error e => (.error ("unable to query db: " ++ e), [endpoint.query])
    | .ok rows => (.ok rows, [endpoint.query])

end Snowflake

namespace MCP

/-- Modelled from the spec: the JSON-Schema type name for a declared
logical parameter type (§6: `datetime` maps to `string` with
date-time format, every other logical type keeps its name). -/
def jsonSchemaType : String → String
  | "datetime" => "string"
  | t => t

/-- Modelled from the spec: an MCP tool as advertised by `tools/list`
(§4.G): name, description, and an input schema of type `object` with one
property per endpoint parameter and the required-parameter names. -/
structure Tool where
  name : String
  description : String
  schemaProperties : List (String × String)
  required : List String
deriving DecidableEq, Repr

/-- Modelled from the spec: derive the tool of an endpoint (§4.G):
`name = endpoint.mcpMethod` (falling back to `group/httpPath` when
empty), `description = endpoint.description` verbatim, input schema from
`endpoint.params`. -/
def toolOfEndpoint (e : Endpoint) : Tool :=
  { name := if e.mcpMethod ≠ "" then e.mcpMethod else e.group ++ "/" ++ e.httpPath
    description := e.description
    schemaProperties := e.params.map fun p => (p.name, jsonSchemaType p.type)
    required := (e.params.filter fun p => p.required).map fun p => p.name }

/-- Modelled from the spec: the session-visible state of the MCP server
(`mcpgenerator`, source missing from the extract): whether `initialize`
has been handled, and the installed tool registry. -/
structure Server where
  initialized : Bool
  tools : List Tool
deriving DecidableEq, Repr

/-- Modelled from the spec: a fresh MCP server, before `initialize`. -/
def Server.fresh : Server :=
  { initialized := false, tools := [] }

/-- Modelled from the spec: handling `initialize` moves the session from
`Fresh` to `Initialized`. -/
def Server.handleInitialize (s : Server) : Server :=
  { s with initialized := true }

/-- Modelled from the spec: `SetTools` installs one tool per endpoint. -/
def Server.SetTools (s : Server) (endpoints : List Endpoint) : Server :=
  { s with tools := endpoints.map toolOfEndpoint }

/-- Modelled from the spec: result of a `tools/list` request — the tool
registry, or a JSON-RPC error code (`-32002` before `initialize`). -/
inductive ToolsListResult where
  | ok (tools : List Tool)
  | err (code : Int)
deriving DecidableEq, Repr

/-- Modelled from the spec: `tools/list` returns the current tool
registry once the session is initialized, and JSON-RPC error `-32002`
while the session is still fresh. -/
def Server.toolsList (s : Server) : ToolsListResult :=
  if s.initialized then .ok s.tools else .err (-32002)

end MCP

/-! ### Claim theorems -/

open Snowflake

/-- Query environment used to exercise `Query` on a mutating statement:
coercion succeeds and the driver executes the statement. -/
def c1Env : QueryEnv :=
  { paramsE := fun _ p => .ok p
    namedQuery := fun _ _ => .ok [[]] }

/-- Query environment whose parameter coercion always fails. -/
def c5Env : QueryEnv :=
  { paramsE := fun _ _ => .error "unsupported type"
    namedQuery := fun _ _ => .ok [] }

/-- Config used by the C7 witness to exercise field-composed DSNs. -/
def c7Config : Config :=
  { account := "a", database := "d", user := "u", password := "p",
    warehouse := "w", schema := "s", role := "r" }

/-- The endpoint of the `TestSetToolsIncludesDescription` test. -/
def c9Endpoint : Endpoint :=
  { mcpMethod := "test_method"
    description := "sample description"
    params := [{ name := "id", type := "string" }] }

/-- Discovery environment of the C2 witness: three plain tables with
metadata row counts. -/
def c2Env : DiscoveryEnv :=
  { showTables := .ok [
      { name := some "INTEGRATION_TEST_USERS", rowsMeta := some (some "5") },
      { name := some "INTEGRATION_TEST_ORDERS", rowsMeta := some (some "3") },
      { name := some "OTHER", rowsMeta := some (some "2") }]
    loadsColumnsR := fun _ => .ok []
    countRows := fun _ => .ok 1 }

/-- Unfiltered discovery result of `c2Env`. -/
def c2Tables : List Table :=
  [{ name := "INTEGRATION_TEST_USERS", columns := [], rowCount := 5 },
   { name := "INTEGRATION_TEST_ORDERS", columns := [], rowCount := 3 },
   { name := "OTHER", columns := [], rowCount := 2 }]

/-- Row of the C4 counterexample: the `rows` metadata column is present
and holds the string `"0"`. -/
def c4Row : ShowTableRow :=
  { name := some "EMPTYISH", rowsMeta := some (some "0") }

/-- Discovery environment of the C4 counterexample: the fallback
`SELECT COUNT(*)` would report 7 rows. -/
def c4Env : DiscoveryEnv :=
  { showTables := .ok [c4Row]
    loadsColumnsR := fun _ => .ok []
    countRows := fun _ => .ok 7 }

/-- Discovery environment of the C4 witness. -/
def c4wEnv : DiscoveryEnv :=
  { showTables := .ok []
    loadsColumnsR := fun _ => .ok []
    countRows := fun _ => .ok 9 }

/-- Row of the C4 witness: available metadata count 5. -/
def c4wRow : ShowTableRow :=
  { name := some "T", rowsMeta := some (some "5") }

/-- Load environment of the C8 witness: two columns, and a
`SHOW PRIMARY KEYS` query that fails outright. -/
def c8Env : LoadEnv :=
  { infoColumns := .ok [
      { name := "ID", dataType := "NUMBER", numericScale := some 0 },
      { name := "NAME", dataType := "VARCHAR", numericScale := none }]
    pkRows := .error "SQL compilation error" }

/-- Discovery environment of the C10 witness: loading columns of the
unrequested table `OTHER` fails. -/
def c10Env : DiscoveryEnv :=
  { showTables := .ok [
      { name := some "INTEGRATION_TEST_USERS", rowsMeta := some (some "5") },
      { name := some "OTHER" }]
    loadsColumnsR := fun n =>
      if n == "OTHER" then .error "permission denied on OTHER" else .ok []
    countRows := fun _ => .ok 1 }

/-- C1: the claim asserts that with `readonly=true` a mutating endpoint
query fails with `ErrReadonly` and affects no rows.  The code has no such
path: `Connector.Query` never reads the config (first conjunct: its
result is identical for every config, in particular for readonly and
non-readonly ones), and on the concrete failing input — `readonly=true`
with endpoint SQL `DELETE FROM employees` — the statement is submitted to
the driver and its result is returned unchanged (second conjunct). -/
theorem c1_query_ignores_readonly :
    (∀ (cfg cfg' : Config) (env : QueryEnv) (ep : Endpoint) (p : Params),
        Query cfg env ep p = Query cfg' env ep p) ∧
    Query { isReadonly := true } c1Env { query := "DELETE FROM employees" } [] =
      (.ok [[]], ["DELETE FROM employees"]) := by
  exact ⟨fun _ _ _ _ _ => rfl, rfl⟩

/-- C3 counterexample: the claim maps every `DECIMAL` column with scale 0
to `integer`, but the scale-0 override of `LoadsColumns` tests only for
the type name `NUMBER`, so a `DECIMAL` column with scale 0 gets logical
type `number`. -/
theorem c3_decimal_scale0_counterexample :
    columnLogicalType "DECIMAL" (some 0) = ColumnType.number ∧
    ColumnType.number ≠ ColumnType.integer := by
  exact ⟨rfl, by decide⟩

/-- C3 amended: a `NUMBER` column maps to `integer` exactly when its
scale is 0 and to `number` otherwise, while a `DECIMAL` column maps to
`number` regardless of its scale (including scale 0). -/
theorem c3_scale_mapping_amended :
    (∀ s : Int, columnLogicalType "NUMBER" (some s) =
      if s = 0 then ColumnType.integer else ColumnType.number) ∧
    (∀ sc : Option Int, columnLogicalType "DECIMAL" sc = ColumnType.number) := by
  constructor
  · intro s
    by_cases h : s = 0
    · subst h; decide
    · rw [if_neg h]
      simp only [columnLogicalType]
      have h2 : (some s == some (0 : Int)) = false := by
        simp [h]
      rw [h2, Bool.and_false]
      decide
  · intro sc
    simp only [columnLogicalType]
    have h1 : (strToUpper "DECIMAL" == "NUMBER") = false := by decide
    rw [h1, Bool.false_and]
    decide

/-- C5: when the `castx.ParamsE` coercion fails, `Connector.Query`
returns the wrapped coercion error and submits no SQL to the driver. -/
theorem c5_coercion_error_no_sql (cfg : Config) (env : QueryEnv) (ep : Endpoint)
    (p : Params) (e : String) (h : env.paramsE ep p = .error e) :
    Query cfg env ep p = (.error ("unable to process params: " ++ e), []) := by
  simp only [Query, h]

/-- C5 witness: a concrete environment with failing coercion. -/
theorem c5_coercion_error_no_sql_witness :
    c5Env.paramsE {} [] = .error "unsupported type" ∧
    Query {} c5Env {} [] =
      (.error ("unable to process params: " ++ "unsupported type"), []) :=
  ⟨rfl, c5_coercion_error_no_sql {} c5Env {} [] "unsupported type" rfl⟩

/-- C7: the connection decoder accepts both YAML shapes — a non-empty
scalar becomes the connection string and a mapping becomes the full
config — and `MakeDSN` returns a prebuilt connection string verbatim,
composing the DSN from the individual fields only when none is set. -/
theorem c7_yaml_and_dsn :
    (∀ s : String, s ≠ "" →
      Config.UnmarshalYAML (.scalar s) = .ok { connString := s }) ∧
    (∀ c : Config, Config.UnmarshalYAML (.mapping c) = .ok c) ∧
    (∀ c : Config, c.connString ≠ "" → c.MakeDSN = .ok c.connString) ∧
    (∀ c : Config, c.connString = "" → c.MakeDSN =
      .ok (c.user ++ ":" ++ c.password ++ "@" ++ c.account ++ "/" ++
        c.database ++ "/" ++ c.schema ++ "?warehouse=" ++ c.warehouse ++
        "&role=" ++ c.role)) := by
  refine ⟨?_, fun c => rfl, ?_, ?_⟩
  · intro s hs
    have hlen : s.length > 0 := by
      cases s with
      | mk data =>
        cases data with
        | nil => exact absurd rfl hs
        | cons c cs => simp [String.length]
    simp only [Config.UnmarshalYAML, if_pos hlen]
  · intro c hc
    simp only [Config.MakeDSN, if_pos hc]
  · intro c hc
    simp only [Config.MakeDSN, hc]
    rfl

/-- C7 witness: both YAML shapes and both DSN paths at concrete inputs. -/
theorem c7_yaml_and_dsn_witness :
    ("snowflake://dsn" ≠ "" ∧
      Config.UnmarshalYAML (.scalar "snowflake://dsn") =
        .ok { connString := "snowflake://dsn" }) ∧
    Config.UnmarshalYAML (.mapping c7Config) = .ok c7Config ∧
    (({ connString := "raw-dsn" } : Config).connString ≠ "" ∧
      ({ connString := "raw-dsn" } : Config).MakeDSN = .ok "raw-dsn") ∧
    (c7Config.connString = "" ∧
      c7Config.MakeDSN = .ok "u:p@a/d/s?warehouse=w&role=r") := by
  refine ⟨⟨by decide, c7_yaml_and_dsn.1 _ (by decide)⟩,
    c7_yaml_and_dsn.2.1 c7Config,
    ⟨by decide, c7_yaml_and_dsn.2.2.1 _ (by decide)⟩,
    ⟨rfl, ?_⟩⟩
  have h := c7_yaml_and_dsn.2.2.2 c7Config rfl
  exact h.trans rfl

/-- C9: after `initialize` and installing the single test endpoint,
`tools/list` returns exactly one tool whose description is the
endpoint's description verbatim (with the documented input schema). -/
theorem c9_tools_list_description :
    (MCP.Server.fresh.handleInitialize.SetTools [c9Endpoint]).toolsList =
      .ok [{ name := "test_method", description := "sample description",
             schemaProperties := [("id", "string")], required := [] }] := by
  rfl

/-- C2: for a non-empty filter list, `Discovery` returns a subset of the
unfiltered result containing exactly the tables whose upper-cased names
equal the upper-cased form of some requested name. -/
theorem c2_discovery_filter (env : DiscoveryEnv) (L : List String) (hL : L ≠ [])
    (ts : List Table) (h : executeTableQuery env = .ok ts) :
    ∃ res, Discovery env L = .ok res ∧
      (∀ t ∈ res, t ∈ ts) ∧
      (∀ t, t ∈ res ↔ t ∈ ts ∧ ∃ a ∈ L, strToUpper a = strToUpper t.name) := by
  have hlen : L.length > 0 := List.length_pos.mpr hL
  refine ⟨ts.filter (fun t => L.any fun a => strToUpper a == strToUpper t.name),
    ?_, ?_, ?_⟩
  · simp only [Discovery, if_pos hlen, h]
  · intro t ht
    exact (List.mem_filter.mp ht).1
  · intro t
    rw [List.mem_filter]
    constructor
    · rintro ⟨h1, h2⟩
      obtain ⟨a, ha, he⟩ := List.any_eq_true.mp h2
      exact ⟨h1, a, ha, by simpa using he⟩
    · rintro ⟨h1, a, ha, he⟩
      exact ⟨h1, List.any_eq_true.mpr ⟨a, ha, by simpa using he⟩⟩

/-- C2 witness: the scenario of the spec — a lower/mixed-case filter list
over three tables. -/
theorem c2_discovery_filter_witness :
    (["integration_test_users", "Integration_Test_Orders"] ≠ ([] : List String)) ∧
    executeTableQuery c2Env = .ok c2Tables ∧
    ∃ res, Discovery c2Env ["integration_test_users", "Integration_Test_Orders"] =
        .ok res ∧
      (∀ t ∈ res, t ∈ c2Tables) ∧
      (∀ t, t ∈ res ↔ t ∈ c2Tables ∧
        ∃ a ∈ ["integration_test_users", "Integration_Test_Orders"],
          strToUpper a = strToUpper t.name) :=
  ⟨by decide, rfl,
    c2_discovery_filter c2Env ["integration_test_users", "Integration_Test_Orders"]
      (by decide) c2Tables rfl⟩

/-- C4 counterexample: the claim says the connector falls back to
`SELECT COUNT(*)` only when the `rows` metadata is unavailable.  Here the
metadata is available and holds `"0"`, yet the discovered row count is 7
— the value of the fallback count query — because the code falls back
whenever the parsed metadata count is 0. -/
theorem c4_fallback_on_zero_counterexample :
    c4Row.rowsMeta = some (some "0") ∧ sscanfInt "0" = 0 ∧
    executeTableQuery c4Env =
      .ok [{ name := "EMPTYISH", columns := [], rowCount := 7 }] :=
  ⟨rfl, rfl, rfl⟩

/-- C4 amended: for a table row that is processed (named, not dropped,
not external, columns load fine), the row count is the parsed `rows`
metadata when that parses to a nonzero value, and the connector executes
the fallback `SELECT COUNT(*)` whenever the parsed metadata count is 0 —
i.e. when the metadata is unavailable, unparsable, or equal to zero. -/
theorem c4_rowcount_amended (env : DiscoveryEnv) (r : ShowTableRow) (n : String)
    (cols : List ColumnSchema) (hn : r.name = some n) (hd : droppedSkip r = false)
    (he : externalSkip r = false) (hc : env.loadsColumnsR n = .ok cols) :
    (rowMetaCount r ≠ 0 →
      processRow env r =
        .ok (some { name := n, columns := cols, rowCount := rowMetaCount r })) ∧
    (rowMetaCount r = 0 →
      processRow env r =
        match env.countRows n with
        | .error e =>
          .error ("unable to get row count for table " ++ n ++ ": " ++ e)
        | .ok k => .ok (some { name := n, columns := cols, rowCount := k })) := by
  constructor
  · intro hm
    have hb : (rowMetaCount r == 0) = false := by
      simpa using hm
    simp only [processRow, hn, hd, he, hc, hb]
    simp
  · intro hm
    have hb : (rowMetaCount r == 0) = true := by
      simpa using hm
    simp only [processRow, hn, hd, he, hc, hb]
    simp

/-- C4 witness: the amended row-count rule at a concrete processed row. -/
theorem c4_rowcount_amended_witness :
    (c4wRow.name = some "T" ∧ droppedSkip c4wRow = false ∧
      externalSkip c4wRow = false ∧ c4wEnv.loadsColumnsR "T" = .ok []) ∧
    ((rowMetaCount c4wRow ≠ 0 →
      processRow c4wEnv c4wRow =
        .ok (some { name := "T", columns := [], rowCount := rowMetaCount c4wRow })) ∧
    (rowMetaCount c4wRow = 0 →
      processRow c4wEnv c4wRow =
        match c4wEnv.countRows "T" with
        | .error e =>
          .error ("unable to get row count for table " ++ "T" ++ ": " ++ e)
        | .ok k => .ok (some { name := "T", columns := [], rowCount := k }))) :=
  ⟨⟨rfl, rfl, rfl, rfl⟩,
    c4_rowcount_amended c4wEnv c4wRow "T" [] rfl rfl rfl rfl⟩

/-- C6: `GuessColumnType` is a total Lean function, and on every SQL type
name matching none of its recognised patterns it returns the `string`
fallback. -/
theorem c6_guess_total_fallback (s : String)
    (h : recognizedSqlType (strToUpper s) = false) :
    GuessColumnType s = ColumnType.string := by
  simp only [recognizedSqlType, Bool.or_eq_false_iff] at h
  obtain ⟨⟨⟨⟨⟨⟨⟨⟨h1, h2⟩, h3⟩, h4⟩, h5⟩, h6⟩, h7⟩, h8⟩, h9⟩ := h
  have h4' : strToUpper s ∉ stringTypeNames := by simpa using h4
  have h5' : strToUpper s ∉ numberTypeNames := by simpa using h5
  have h6' : strToUpper s ∉ integerTypeNames := by simpa using h6
  have h8' : strToUpper s ∉ datetimeTypeNames := by simpa using h8
  simp [GuessColumnType, h1, h2, h3, h4', h5', h6', h7, h8', h9]

/-- C6 witness: `GEOGRAPHY` is a real Snowflake type outside the mapping
table; it falls back to `string`. -/
theorem c6_guess_total_fallback_witness :
    recognizedSqlType (strToUpper "GEOGRAPHY") = false ∧
    GuessColumnType "GEOGRAPHY" = ColumnType.string :=
  ⟨by decide, c6_guess_total_fallback "GEOGRAPHY" (by decide)⟩

/-- Marking a primary key never changes column names or types. -/
theorem markPkLast_nameType (cols : List ColumnSchema) (cn : String) :
    (markPkLast cols cn).map (fun c => (c.name, c.type)) =
      cols.map (fun c => (c.name, c.type)) := by
  induction cols with
  | nil => rfl
  | cons c rest ih =>
    simp only [markPkLast]
    by_cases h1 : rest.any (fun d => d.name == cn)
    · simp only [h1, if_pos, List.map_cons, ih]
    · simp only [Bool.not_eq_true] at h1
      rw [if_neg (by simp [h1])]
      by_cases h2 : c.name == cn
      · rw [if_pos h2]
        rfl
      · rw [if_neg h2]

/-- The primary-key loop never changes column names or types. -/
theorem applyPk_nameType (rows : List PkRow) (cols : List ColumnSchema) :
    (applyPk cols rows).map (fun c => (c.name, c.type)) =
      cols.map (fun c => (c.name, c.type)) := by
  induction rows generalizing cols with
  | nil => rfl
  | cons r rest ih =>
    cases r with
    | error u => rfl
    | ok o =>
      cases o with
      | none => exact ih cols
      | some cn =>
        simp only [applyPk]
        by_cases h : cn ≠ ""
        · rw [if_pos h, ih, markPkLast_nameType]
        · rw [if_neg h]
          exact ih cols

/-- A column marked as primary key by `markPkLast` either was already
marked or carries the marked name. -/
theorem markPkLast_mem (cols : List ColumnSchema) (cn : String) (c : ColumnSchema)
    (hc : c ∈ markPkLast cols cn) (hpk : c.primaryKey = true) :
    (c ∈ cols ∧ c.primaryKey = true) ∨ c.name = cn := by
  induction cols with
  | nil => cases hc
  | cons d rest ih =>
    simp only [markPkLast] at hc
    by_cases h1 : rest.any (fun d => d.name == cn)
    · rw [if_pos h1] at hc
      rcases List.mem_cons.mp hc with h | h
      · exact .inl ⟨by simp [h], hpk⟩
      · rcases ih h with ⟨hm, hp⟩ | hn
        · exact .inl ⟨List.mem_cons_of_mem d hm, hp⟩
        · exact .inr hn
    · rw [if_neg h1] at hc
      by_cases h2 : d.name == cn
      · rw [if_pos h2] at hc
        rcases List.mem_cons.mp hc with h | h
        · subst h
          exact .inr (by simpa using h2)
        · exact .inl ⟨List.mem_cons_of_mem d h, hpk⟩
      · rw [if_neg h2] at hc
        exact .inl ⟨hc, hpk⟩

/-- A column marked as primary key after the `SHOW PRIMARY KEYS` loop
either was already marked or carries one of the scanned names. -/
theorem applyPk_mem (rows : List PkRow) (cols : List ColumnSchema) (c : ColumnSchema)
    (hc : c ∈ applyPk cols rows) (hpk : c.primaryKey = true) :
    (c ∈ cols ∧ c.primaryKey = true) ∨ c.name ∈ scannedPkNames rows := by
  induction rows generalizing cols with
  | nil => exact .inl ⟨hc, hpk⟩
  | cons r rest ih =>
    cases r with
    | error u => exact .inl ⟨hc, hpk⟩
    | ok o =>
      cases o with
      | none => exact ih cols hc
      | some cn =>
        simp only [applyPk] at hc
        simp only [scannedPkNames]
        by_cases h : cn ≠ ""
        · rw [if_pos h] at hc
          rw [if_pos h]
          rcases ih (markPkLast cols cn) hc with ⟨hm, hp⟩ | hn
          · rcases markPkLast_mem cols cn c hm hp with ⟨hm', hp'⟩ | he
            · exact .inl ⟨hm', hp'⟩
            · exact .inr (by simp [he])
          · exact .inr (List.mem_cons_of_mem cn hn)
        · rw [if_neg h] at hc
          rw [if_neg h]
          exact ih cols hc

/-- C8: when the primary-key introspection path fails — the
`SHOW PRIMARY KEYS` query errors or some of its rows cannot be scanned —
`LoadsColumns` still succeeds with the full column list (names and types
as computed from `information_schema.columns`), and every column not
covered by a successfully scanned primary-key row keeps
`primaryKey = false`. -/
theorem c8_pk_failure_tolerated (env : LoadEnv) (infos : List InfoColumn)
    (hinfo : env.infoColumns = .ok infos) (hfail : pkIntrospectionFailed env) :
    ∃ cols, LoadsColumns env = .ok cols ∧
      cols.map (fun c => (c.name, c.type)) =
        infos.map (fun i => (i.name, columnLogicalType i.dataType i.numericScale)) ∧
      ∀ c ∈ cols, c.primaryKey = true → c.name ∈ envScannedPkNames env := by
  simp only [LoadsColumns, hinfo]
  cases hpk : env.pkRows with
  | error e =>
    refine ⟨_, rfl, ?_, ?_⟩
    · rw [List.map_map]
      rfl
    · intro c hc hp
      obtain ⟨i, _, hi⟩ := List.mem_map.mp hc
      rw [← hi] at hp
      cases hp
  | ok rows =>
    refine ⟨_, rfl, ?_, ?_⟩
    · rw [applyPk_nameType, List.map_map]
      rfl
    · intro c hc hp
      rcases applyPk_mem rows _ c hc hp with ⟨hm, hp'⟩ | hn
      · obtain ⟨i, _, hi⟩ := List.mem_map.mp hm
        rw [← hi] at hp'
        cases hp'
      · simpa [envScannedPkNames, hpk] using hn

/-- C8 witness: a failing primary-key query still yields the two columns
with `primaryKey = false`. -/
theorem c8_pk_failure_tolerated_witness :
    c8Env.infoColumns = .ok [
      { name := "ID", dataType := "NUMBER", numericScale := some 0 },
      { name := "NAME", dataType := "VARCHAR", numericScale := none }] ∧
    pkIntrospectionFailed c8Env ∧
    ∃ cols, LoadsColumns c8Env = .ok cols ∧
      cols.map (fun c => (c.name, c.type)) =
        ([{ name := "ID", dataType := "NUMBER", numericScale := some 0 },
          { name := "NAME", dataType := "VARCHAR", numericScale := none }] :
            List InfoColumn).map
          (fun i => (i.name, columnLogicalType i.dataType i.numericScale)) ∧
      ∀ c ∈ cols, c.primaryKey = true → c.name ∈ envScannedPkNames c8Env :=
  ⟨rfl, trivial, c8_pk_failure_tolerated c8Env _ rfl trivial⟩

/-- C10: `Discovery` with any filter list still runs the full
`executeTableQuery` over the whole schema, so any error of that
enumeration — in particular a `LoadsColumns` failure on a table not named
in the filter — is returned instead of the matching tables. -/
theorem c10_filtered_discovery_error (env : DiscoveryEnv) (L : List String)
    (e : String) (h : executeTableQuery env = .error e) :
    Discovery env L = .error e := by
  simp only [Discovery]
  by_cases hl : L.length > 0
  · rw [if_pos hl, h]
  · rw [if_neg hl]
    exact h

/-- C10 witness: filtering for `INTEGRATION_TEST_USERS` only still fails
with the column-loading error of the unrequested table `OTHER`. -/
theorem c10_filtered_discovery_error_witness :
    executeTableQuery c10Env = .error "permission denied on OTHER" ∧
    Discovery c10Env ["INTEGRATION_TEST_USERS"] =
      .error "permission denied on OTHER" :=
  ⟨rfl, c10_filtered_discovery_error c10Env ["INTEGRATION_TEST_USERS"]
    "permission denied on OTHER" rfl⟩

end Gateway
